import Mathlib

/-!
Verification of the backend process supervisor of `src-tauri/src/main.rs`.

The supervisor is embedded shallowly: the shared `BackendServer` state and the
watchdog loop's local counters become an explicit state record, and every
interaction with the environment (health-probe outcomes over the network,
OS spawn results, the value of the `shutting_down` atomic flag at the moments
the code reads it) is supplied as an input to a pure step function that mirrors
the body of the Rust code.  Release-mode (`not(debug_assertions)`) behaviour is
modelled, since that is the configuration in which the watchdog runs.
-/

namespace Narrassist

/-- `MAX_FAILURES_BEFORE_RESTART` from `backend_watchdog` (line 142). -/
def MAX_FAILURES_BEFORE_RESTART : Nat := 3

/-- `MAX_RESTARTS` from `backend_watchdog` (line 143). -/
def MAX_RESTARTS : Nat := 3

/-- Status field of the `backend-status` events emitted with `app_handle.emit`. -/
inductive BackendStatus where
  | running
  | restarting
  | error
deriving DecidableEq, Repr

/-- One emitted `backend-status` event: a status tag and a message string. -/
structure StatusEvent where
  status : BackendStatus
  message : String
deriving DecidableEq, Repr

/-- `wait_for_health(max_attempts, delay_ms)` from the source: calls
`poll_health_once` up to `max_attempts` times and returns true on the first
success, false when the budget is exhausted.  The network is an oracle: the
list `probes` holds the successive probe outcomes (a missing tail entry means
that probe would have failed). -/
def wait_for_health (probes : List Bool) (max_attempts : Nat) : Bool :=
  match max_attempts, probes with
  | 0, _ => false
  | _ + 1, [] => false
  | n + 1, p :: rest => if p then true else wait_for_health rest n

/-- The shared `BackendServer` state: `child: Arc<Mutex<Option<Child>>>`
(the process handle, `Unit` standing for the opaque `Child`) and the
`shutting_down: Arc<AtomicBool>` flag. -/
structure BackendServer where
  child : Option Unit
  shutting_down : Bool
deriving DecidableEq, Repr

/-- Environment inputs consumed by one call of `start_backend_server`:
the outcome of its single `poll_health_once`, the result of
`spawn_embedded_backend` (were it reached), and the probe outcomes available
to its `wait_for_health(30, 500)` call. -/
structure StartEnv where
  probeOk : Bool
  spawnRes : Except String Unit
  waitProbes : List Bool

/-- Observable outcome of one `start_backend_server` call: the state after the
call, the returned `Result<String, String>`, and whether an OS process was
spawned during the call. -/
structure StartOut where
  state : BackendServer
  result : Except String String
  spawned : Bool

/-- `start_backend_server` (release path, lines 57-110):
if a handle is already tracked, return "already running"; otherwise one
`poll_health_once` — on success return "already running externally" with no
spawn; otherwise spawn (propagating a spawn error), attach the output loggers,
record the handle, run `wait_for_health(30, 500)` whose failure is only
logged, and return the success string. -/
def start_backend_server (s : BackendServer) (env : StartEnv) : StartOut :=
  if s.child.isSome then
    { state := s, result := .ok "Backend server already running", spawned := false }
  else if env.probeOk then
    { state := s, result := .ok "Backend server already running externally",
      spawned := false }
  else
    match env.spawnRes with
    | .error e => { state := s, result := .error e, spawned := false }
    | .ok _ =>
        -- stdout/stderr loggers are attached, the handle is recorded, and the
        -- result of wait_for_health is only logged (line 104-106).
        let _ := wait_for_health env.waitProbes 30
        { state := { s with child := some () },
          result := .ok "Backend server started successfully", spawned := true }

/-- Observable outcome of one `stop_backend_server` call. -/
structure StopOut where
  state : BackendServer
  result : Except String String
  killSent : Bool
  waited : Bool

/-- `stop_backend_server` (lines 113-126): under the lock, take the handle;
if one was tracked, `kill()` it — a kill failure is returned as an error
string — then `wait()` and return the stopped string; with no handle, a
no-op success.  `killOk` is the OS outcome of the kill, `killErr` the error
text when it fails. -/
def stop_backend_server (s : BackendServer) (killOk : Bool) (killErr : String) :
    StopOut :=
  match s.child with
  | some _ =>
      if killOk then
        { state := { s with child := none },
          result := .ok "Backend server stopped successfully",
          killSent := true, waited := true }
      else
        { state := { s with child := none },
          result := .error ("Failed to kill backend server: " ++ killErr),
          killSent := true, waited := false }
  | none =>
      { state := s, result := .ok "Backend server was not running",
        killSent := false, waited := false }

/-- The watchdog loop's state between wakes: its two local counters, the
shared handle, and whether the loop has terminated (`break`). -/
structure WatchdogState where
  consecutive_failures : Nat
  restart_count : Nat
  child : Option Unit
  exited : Bool
deriving DecidableEq, Repr

/-- Environment inputs consumed by one wake of the watchdog loop:
`shutting_down` is the flag value read by the top-of-wake check (line 152);
`shutting_down_before_restart` is the flag value just before the restart
action — the code never reads the flag there, so the field is recorded but
unused; `probeOk` is the `poll_health_once` outcome; `spawnRes` the
`spawn_embedded_backend` result and `waitProbes` the probe outcomes for
`wait_for_health(30, 500)`, were the restart branch reached. -/
structure WdEnv where
  shutting_down : Bool
  shutting_down_before_restart : Bool
  probeOk : Bool
  spawnRes : Except String Unit
  waitProbes : List Bool

/-- Observable outcome of one wake of the watchdog loop. -/
structure WdStepOut where
  state : WatchdogState
  events : List StatusEvent
  probed : Bool
  killSent : Bool
  spawned : Bool
  restartAttempted : Bool

/-- Message of the terminal give-up event (line 179). -/
def maxRestartsMsg : String :=
  "El servidor se detuvo y no pudo reiniciarse. Reinicia la aplicación."

/-- Message of the restarting event (line 192). -/
def restartingMsg : String := "El servidor se detuvo, reiniciando..."

/-- Message of the restarted-ok event (line 230). -/
def restartedMsg : String := "Servidor reiniciado correctamente"

/-- One wake of the `backend_watchdog` loop body (lines 146-251):
after the 15 s sleep, check `shutting_down` and break if set; probe — a
success resets `consecutive_failures` and continues; a failure increments it
and, below the threshold, continues.  At the threshold: if `restart_count`
has reached `MAX_RESTARTS`, emit one error event and break; otherwise emit
the restarting event, kill-and-wait the old handle if any, clear it, and
spawn.  A successful spawn records the new handle; a successful
`wait_for_health(30, 500)` then increments `restart_count`, resets
`consecutive_failures` and emits a running event, while a failed wait only
increments `restart_count`.  A failed spawn increments `restart_count` and
emits an error event.  A terminated loop does nothing. -/
def watchdogStep (s : WatchdogState) (env : WdEnv) : WdStepOut :=
  if s.exited then
    { state := s, events := [], probed := false, killSent := false,
      spawned := false, restartAttempted := false }
  else if env.shutting_down then
    { state := { s with exited := true }, events := [], probed := false,
      killSent := false, spawned := false, restartAttempted := false }
  else if env.probeOk then
    { state := { s with consecutive_failures := 0 }, events := [],
      probed := true, killSent := false, spawned := false,
      restartAttempted := false }
  else
    let cf := s.consecutive_failures + 1
    if cf < MAX_FAILURES_BEFORE_RESTART then
      { state := { s with consecutive_failures := cf }, events := [],
        probed := true, killSent := false, spawned := false,
        restartAttempted := false }
    else if MAX_RESTARTS ≤ s.restart_count then
      { state := { s with consecutive_failures := cf, exited := true },
        events := [{ status := .error, message := maxRestartsMsg }],
        probed := true, killSent := false, spawned := false,
        restartAttempted := false }
    else
      let killSent := s.child.isSome
      match env.spawnRes with
      | .ok _ =>
          if wait_for_health env.waitProbes 30 then
            { state := { consecutive_failures := 0,
                         restart_count := s.restart_count + 1,
                         child := some (), exited := false },
              events := [{ status := .restarting, message := restartingMsg },
                         { status := .running, message := restartedMsg }],
              probed := true, killSent := killSent, spawned := true,
              restartAttempted := true }
          else
            { state := { consecutive_failures := cf,
                         restart_count := s.restart_count + 1,
                         child := some (), exited := false },
              events := [{ status := .restarting, message := restartingMsg }],
              probed := true, killSent := killSent, spawned := true,
              restartAttempted := true }
      | .error e =>
          { state := { consecutive_failures := cf,
                       restart_count := s.restart_count + 1,
                       child := none, exited := false },
            events := [{ status := .restarting, message := restartingMsg },
                       { status := .error,
                         message := "Error reiniciando servidor: " ++ e }],
            probed := true, killSent := killSent, spawned := false,
            restartAttempted := true }

/-- The outcomes of running the watchdog loop over a list of per-wake
environments, in order. -/
def watchdogTrace (s : WatchdogState) : List WdEnv → List WdStepOut
  | [] => []
  | env :: rest =>
      let o := watchdogStep s env
      o :: watchdogTrace o.state rest

/-- The state after running the watchdog loop over a list of per-wake
environments. -/
def watchdogRun (s : WatchdogState) : List WdEnv → WatchdogState
  | [] => s
  | env :: rest => watchdogRun (watchdogStep s env).state rest

/-- Number of spawns performed along a trace. -/
def spawnCount (t : List WdStepOut) : Nat :=
  (t.filter (fun o => o.spawned)).length

/-- Number of kill signals sent along a trace. -/
def killCount (t : List WdStepOut) : Nat :=
  (t.filter (fun o => o.killSent)).length

/-- All events emitted along a trace, in order. -/
def traceEvents (t : List WdStepOut) : List StatusEvent :=
  t.foldr (fun o acc => o.events ++ acc) []

/-- Number of error-status events emitted along a trace. -/
def errorEventCount (t : List WdStepOut) : Nat :=
  ((traceEvents t).filter (fun e => e.status = BackendStatus.error)).length

/-- A wake at which the probe fails, the flag is unset throughout, the spawn
succeeds, and the post-respawn wait sees the probe outcomes `w`. -/
def failEnv (w : List Bool) : WdEnv :=
  { shutting_down := false, shutting_down_before_restart := false,
    probeOk := false, spawnRes := .ok (), waitProbes := w }

/-- A wake at which the probe succeeds and the flag is unset. -/
def succEnv : WdEnv :=
  { shutting_down := false, shutting_down_before_restart := false,
    probeOk := true, spawnRes := .ok (), waitProbes := [] }

/-- A wake at which the probe fails and the spawn fails with message `e`. -/
def failSpawnEnv (e : String) : WdEnv :=
  { shutting_down := false, shutting_down_before_restart := false,
    probeOk := false, spawnRes := .error e, waitProbes := [] }

/-- C5: when no handle is tracked and the single `poll_health_once` in
`start_backend_server` reports healthy, the call spawns no process, records
no handle (the state is unchanged), and returns the
"already running externally" status string. -/
theorem C5_start_external
    (s : BackendServer) (env : StartEnv)
    (hchild : s.child = none) (hprobe : env.probeOk = true) :
    (start_backend_server s env).spawned = false ∧
    (start_backend_server s env).state = s ∧
    (start_backend_server s env).result =
      .ok "Backend server already running externally" := by
  simp [start_backend_server, hchild, hprobe]

/-- Witness for C5 at a concrete state and environment. -/
theorem C5_start_external_witness :
    (start_backend_server { child := none, shutting_down := false }
        { probeOk := true, spawnRes := .ok (), waitProbes := [] }).spawned
      = false :=
  (C5_start_external _ _ rfl rfl).1

/-- C6: whenever a handle is already tracked, `start_backend_server` returns
the "already running" string with no side effects; consequently two
consecutive calls starting from an untracked state with a failing probe and a
successful spawn perform exactly one spawn, the second returning
"already running". -/
theorem C6_start_idempotent :
    (∀ (s : BackendServer) (env : StartEnv), s.child = some () →
      (start_backend_server s env).result = .ok "Backend server already running" ∧
      (start_backend_server s env).state = s ∧
      (start_backend_server s env).spawned = false) ∧
    (∀ (s : BackendServer) (env1 env2 : StartEnv), s.child = none →
      env1.probeOk = false → env1.spawnRes = .ok () →
      (start_backend_server s env1).spawned = true ∧
      (start_backend_server (start_backend_server s env1).state env2).spawned
        = false ∧
      (start_backend_server (start_backend_server s env1).state env2).result
        = .ok "Backend server already running") := by
  constructor
  · intro s env hchild
    simp [start_backend_server, hchild]
  · intro s env1 env2 hchild hprobe hspawn
    simp [start_backend_server, hchild, hprobe, hspawn]

/-- Witness for C6 at a concrete state and environments. -/
theorem C6_start_idempotent_witness :
    (start_backend_server { child := none, shutting_down := false }
        { probeOk := false, spawnRes := .ok (), waitProbes := [true] }).spawned
      = true :=
  (C6_start_idempotent.2 _
      { probeOk := false, spawnRes := .ok (), waitProbes := [true] }
      { probeOk := false, spawnRes := .ok (), waitProbes := [true] }
      rfl rfl rfl).1

/-- C7: in the `Starting` transition of `start_backend_server`, when the
`wait_for_health(30, 500)` budget is exhausted without a probe success, the
spawned process is nonetheless retained as the tracked handle and the call
still returns the success status string. -/
theorem C7_start_soft_failure
    (s : BackendServer) (env : StartEnv)
    (hchild : s.child = none) (hprobe : env.probeOk = false)
    (hspawn : env.spawnRes = .ok ())
    (_hwait : wait_for_health env.waitProbes 30 = false) :
    (start_backend_server s env).spawned = true ∧
    (start_backend_server s env).state.child = some () ∧
    (start_backend_server s env).result =
      .ok "Backend server started successfully" := by
  simp [start_backend_server, hchild, hprobe, hspawn]

/-- Witness for C7 at a concrete state and an environment whose wait budget
is exhausted (every probe fails). -/
theorem C7_start_soft_failure_witness :
    (start_backend_server { child := none, shutting_down := false }
        { probeOk := false, spawnRes := .ok (), waitProbes := [] }).state.child
      = some () :=
  (C7_start_soft_failure _ _ rfl rfl rfl (by decide)).2.1

/-- C8: with a tracked handle, `stop_backend_server` sends the kill signal
and, on success, waits for the exit, clears the handle and returns the
stopped string, while a kill failure is returned as an error string; with no
tracked handle it is a no-op success, and since every call leaves the handle
cleared, repeated calls are idempotent. -/
theorem C8_stop_behaviour :
    (∀ (s : BackendServer) (e : String), s.child = some () →
      (stop_backend_server s true e).killSent = true ∧
      (stop_backend_server s true e).waited = true ∧
      (stop_backend_server s true e).state.child = none ∧
      (stop_backend_server s true e).result =
        .ok "Backend server stopped successfully") ∧
    (∀ (s : BackendServer) (e : String), s.child = some () →
      (stop_backend_server s false e).result =
        .error ("Failed to kill backend server: " ++ e)) ∧
    (∀ (s : BackendServer) (k : Bool) (e : String), s.child = none →
      (stop_backend_server s k e).result = .ok "Backend server was not running" ∧
      (stop_backend_server s k e).state = s ∧
      (stop_backend_server s k e).killSent = false) ∧
    (∀ (s : BackendServer) (k1 k2 : Bool) (e1 e2 : String),
      (stop_backend_server (stop_backend_server s k1 e1).state k2 e2).state =
        (stop_backend_server s k1 e1).state ∧
      (stop_backend_server (stop_backend_server s k1 e1).state k2 e2).result =
        .ok "Backend server was not running") := by
  refine ⟨?_, ?_, ?_, ?_⟩
  · intro s e hchild
    simp [stop_backend_server, hchild]
  · intro s e hchild
    simp [stop_backend_server, hchild]
  · intro s k e hchild
    simp [stop_backend_server, hchild]
  · intro s k1 k2 e1 e2
    obtain ⟨ch, sd⟩ := s
    cases ch with
    | none => simp [stop_backend_server]
    | some u => cases k1 <;> simp [stop_backend_server]

/-- Witness for C8 at a concrete state. -/
theorem C8_stop_behaviour_witness :
    (stop_backend_server { child := some (), shutting_down := false }
        true "").state.child = none :=
  (C8_stop_behaviour.1 _ "" rfl).2.2.1

/-- A terminated watchdog loop performs no work on any further wake. -/
theorem watchdogStep_exited (s : WatchdogState) (env : WdEnv)
    (h : s.exited = true) :
    watchdogStep s env =
      { state := s, events := [], probed := false, killSent := false,
        spawned := false, restartAttempted := false } := by
  simp [watchdogStep, h]

/-- Along any continuation of a terminated watchdog loop, no step probes or
emits an event. -/
theorem watchdogTrace_exited (s : WatchdogState) (h : s.exited = true)
    (envs : List WdEnv) :
    ∀ o ∈ watchdogTrace s envs, o.probed = false ∧ o.events = [] := by
  induction envs with
  | nil => intro o ho; simp [watchdogTrace] at ho
  | cons e es ih =>
      intro o ho
      rw [watchdogTrace] at ho
      simp only [watchdogStep_exited s e h] at ho
      rcases List.mem_cons.mp ho with h1 | h2
      · subst h1; exact ⟨rfl, rfl⟩
      · exact ih o h2

/-- One watchdog wake either leaves `restart_count` unchanged or, only when
it is still below `MAX_RESTARTS`, increments it by exactly one. -/
theorem watchdogStep_restart_count_cases (s : WatchdogState) (env : WdEnv) :
    (watchdogStep s env).state.restart_count = s.restart_count ∨
    ((watchdogStep s env).state.restart_count = s.restart_count + 1 ∧
      s.restart_count < MAX_RESTARTS) := by
  unfold watchdogStep
  repeat' split
  all_goals simp_all [MAX_RESTARTS]
  all_goals (repeat' split)
  all_goals simp_all

/-- One watchdog wake never raises `restart_count` beyond `MAX_RESTARTS`. -/
theorem watchdogStep_restart_count_le (s : WatchdogState) (env : WdEnv)
    (h : s.restart_count ≤ MAX_RESTARTS) :
    (watchdogStep s env).state.restart_count ≤ MAX_RESTARTS := by
  rcases watchdogStep_restart_count_cases s env with h1 | ⟨h1, h2⟩
  · rw [h1]; exact h
  · rw [h1]
    simp only [MAX_RESTARTS] at *
    omega

/-- C4: `restart_count` never exceeds `MAX_RESTARTS` along any run whose
initial state respects the bound, and any wake that changes `restart_count`
increments it by exactly one and was taken with `restart_count` still below
the maximum. -/
theorem C4_restart_count_bounded
    (s : WatchdogState) (envs : List WdEnv)
    (h : s.restart_count ≤ MAX_RESTARTS) :
    (∀ o ∈ watchdogTrace s envs, o.state.restart_count ≤ MAX_RESTARTS) ∧
    (∀ env : WdEnv,
      (watchdogStep s env).state.restart_count ≠ s.restart_count →
      s.restart_count < MAX_RESTARTS ∧
      (watchdogStep s env).state.restart_count = s.restart_count + 1) := by
  constructor
  · induction envs generalizing s with
    | nil => intro o ho; simp [watchdogTrace] at ho
    | cons e es ih =>
        intro o ho
        rw [watchdogTrace] at ho
        rcases List.mem_cons.mp ho with h1 | h2
        · subst h1; exact watchdogStep_restart_count_le s e h
        · exact ih _ (watchdogStep_restart_count_le s e h) o h2
  · intro env hne
    rcases watchdogStep_restart_count_cases s env with h1 | ⟨h1, h2⟩
    · exact absurd h1 hne
    · exact ⟨h2, h1⟩

/-- Witness for C4 at a concrete state and wake. -/
theorem C4_restart_count_bounded_witness :
    (watchdogStep ⟨0, 0, some (), false⟩ (failEnv [])).state.restart_count
      ≤ MAX_RESTARTS :=
  (C4_restart_count_bounded ⟨0, 0, some (), false⟩ [failEnv []]
      (by decide)).1 _ (by simp [watchdogTrace])

/-- C3 counterexample: the flag is read only at the top of the wake.  With
`consecutive_failures = 2`, a failing probe, and `shutting_down` set after
that top-of-wake read but before the restart action (so the wake saw `false`
but the flag is `true` before the kill+respawn), the respawn still happens
and the loop does not exit — contradicting the claim. -/
theorem C3_counterexample :
    (watchdogStep ⟨2, 0, some (), false⟩
        ⟨false, true, false, .ok (), []⟩).spawned = true ∧
    (watchdogStep ⟨2, 0, some (), false⟩
        ⟨false, true, false, .ok (), []⟩).state.exited = false := by
  constructor <;> rfl

/-- C3 amended: the only `shutting_down` check is at the top of each wake;
whenever that check reads `true`, the wake performs no probe, no kill, no
respawn, emits nothing, leaves both counters unchanged, and the loop exits —
regardless of `consecutive_failures` and `restart_count`.  A flag set only
after that check does not cancel the current wake's restart action. -/
theorem C3_amended_shutdown_at_wake
    (s : WatchdogState) (env : WdEnv) (hex : s.exited = false)
    (hsd : env.shutting_down = true) :
    (watchdogStep s env).state.exited = true ∧
    (watchdogStep s env).spawned = false ∧
    (watchdogStep s env).killSent = false ∧
    (watchdogStep s env).restartAttempted = false ∧
    (watchdogStep s env).events = [] ∧
    (watchdogStep s env).state.consecutive_failures
      = s.consecutive_failures ∧
    (watchdogStep s env).state.restart_count = s.restart_count := by
  simp [watchdogStep, hex, hsd]

/-- Witness for the amended C3 at a concrete state and wake. -/
theorem C3_amended_shutdown_at_wake_witness :
    (watchdogStep ⟨2, 3, some (), false⟩
        ⟨true, true, false, .ok (), []⟩).state.exited = true :=
  (C3_amended_shutdown_at_wake ⟨2, 3, some (), false⟩
    ⟨true, true, false, .ok (), []⟩ rfl rfl).1

/-- A non-terminated watchdog wake with a successful probe resets
`consecutive_failures`, probes, emits nothing and keeps the loop alive. -/
theorem watchdogStep_succEnv (s : WatchdogState) (hex : s.exited = false) :
    watchdogStep s succEnv =
      { state := { s with consecutive_failures := 0 }, events := [],
        probed := true, killSent := false, spawned := false,
        restartAttempted := false } := by
  simp [watchdogStep, hex, succEnv]

/-- Along any all-successful-probe run of a live watchdog, every wake probes,
emits nothing, stays alive and holds `consecutive_failures = 0`. -/
theorem watchdogTrace_replicate_succ :
    ∀ (n : Nat) (s : WatchdogState), s.exited = false →
      ∀ o ∈ watchdogTrace s (List.replicate n succEnv),
        o.probed = true ∧ o.state.exited = false ∧ o.events = [] ∧
        o.state.consecutive_failures = 0 := by
  intro n
  induction n with
  | zero => intro s hex o ho; simp [watchdogTrace] at ho
  | succ n ih =>
      intro s hex o ho
      rw [List.replicate_succ, watchdogTrace] at ho
      simp only [watchdogStep_succEnv s hex] at ho
      rcases List.mem_cons.mp ho with h1 | h2
      · subst h1; exact ⟨rfl, hex, rfl, rfl⟩
      · exact ih _ (by simpa using hex) o h2

/-- C10: with `restart_count` at the maximum, the loop is not terminated by
that fact alone: a successful probe resets `consecutive_failures`, emits
nothing and continues; runs of successful probes of any length keep probing
and never exit; a probe failure below the threshold also continues; the one
error event and the loop exit happen exactly when a probe failure brings
`consecutive_failures` to the threshold while `restart_count` is at the
maximum. -/
theorem C10_max_restarts_not_terminal
    (s : WatchdogState) (hex : s.exited = false)
    (hrc : s.restart_count = MAX_RESTARTS) :
    ((watchdogStep s succEnv).state.exited = false ∧
     (watchdogStep s succEnv).state.consecutive_failures = 0 ∧
     (watchdogStep s succEnv).events = [] ∧
     (watchdogStep s succEnv).probed = true) ∧
    (∀ n : Nat, ∀ o ∈ watchdogTrace s (List.replicate n succEnv),
      o.probed = true ∧ o.state.exited = false ∧ o.events = []) ∧
    (∀ env : WdEnv, env.shutting_down = false → env.probeOk = false →
      s.consecutive_failures + 1 < MAX_FAILURES_BEFORE_RESTART →
      (watchdogStep s env).state.exited = false ∧
      (watchdogStep s env).events = [] ∧
      (watchdogStep s env).restartAttempted = false ∧
      (watchdogStep s env).probed = true) ∧
    (∀ env : WdEnv, env.shutting_down = false → env.probeOk = false →
      MAX_FAILURES_BEFORE_RESTART ≤ s.consecutive_failures + 1 →
      (watchdogStep s env).events =
        [{ status := .error, message := maxRestartsMsg }] ∧
      (watchdogStep s env).state.exited = true ∧
      (watchdogStep s env).spawned = false) := by
  refine ⟨?_, ?_, ?_, ?_⟩
  · simp [watchdogStep_succEnv s hex, hex]
  · intro n o ho
    exact ⟨(watchdogTrace_replicate_succ n s hex o ho).1,
      (watchdogTrace_replicate_succ n s hex o ho).2.1,
      (watchdogTrace_replicate_succ n s hex o ho).2.2.1⟩
  · intro env hsd hp hcf
    simp [watchdogStep, hex, hsd, hp, hcf]
  · intro env hsd hp hcf
    have h1 : ¬ (s.consecutive_failures + 1 < MAX_FAILURES_BEFORE_RESTART) :=
      Nat.not_lt.mpr hcf
    have h2 : MAX_RESTARTS ≤ s.restart_count := le_of_eq hrc.symm
    simp [watchdogStep, hex, hsd, hp, h1, h2]

/-- Witness for C10 at a concrete state. -/
theorem C10_max_restarts_not_terminal_witness :
    (watchdogStep ⟨0, 3, some (), false⟩ succEnv).state.exited = false :=
  (C10_max_restarts_not_terminal ⟨0, 3, some (), false⟩ rfl rfl).1.1

/-- C1: with the failure threshold 3 and restart budget not exhausted,
starting from a wake with `consecutive_failures = 0` and a tracked handle:
three consecutive probe failures perform exactly one kill and one respawn,
both at the third wake; and for every shorter failure run, a probe success
before the third consecutive failure resets `consecutive_failures` to 0 with
no kill and no restart attempted anywhere in that sequence. -/
theorem C1_three_failures_one_restart
    (rc : Nat) (hrc : rc < MAX_RESTARTS) (w : List Bool) :
    (spawnCount (watchdogTrace ⟨0, rc, some (), false⟩
        [failEnv w, failEnv w, failEnv w]) = 1 ∧
     killCount (watchdogTrace ⟨0, rc, some (), false⟩
        [failEnv w, failEnv w, failEnv w]) = 1 ∧
     (watchdogTrace ⟨0, rc, some (), false⟩
        [failEnv w, failEnv w, failEnv w]).map
          (fun o => o.restartAttempted) = [false, false, true]) ∧
    (∀ k : Nat, k < MAX_FAILURES_BEFORE_RESTART →
      spawnCount (watchdogTrace ⟨0, rc, some (), false⟩
          (List.replicate k (failEnv w) ++ [succEnv])) = 0 ∧
      killCount (watchdogTrace ⟨0, rc, some (), false⟩
          (List.replicate k (failEnv w) ++ [succEnv])) = 0 ∧
      (watchdogRun ⟨0, rc, some (), false⟩
          (List.replicate k (failEnv w) ++ [succEnv])).consecutive_failures
        = 0) := by
  have hrc3 : rc < 3 := by simpa [MAX_RESTARTS] using hrc
  constructor
  · have hnot : ¬ (MAX_RESTARTS ≤ rc) := by
      simp only [MAX_RESTARTS]; omega
    cases hw : wait_for_health w 30 <;>
      simp [watchdogTrace, watchdogStep, failEnv, spawnCount, killCount,
        MAX_FAILURES_BEFORE_RESTART, hnot, hw]
  · intro k hk
    have hk3 : k < 3 := by simpa [MAX_FAILURES_BEFORE_RESTART] using hk
    interval_cases k <;>
      simp [watchdogTrace, watchdogRun, watchdogStep, failEnv, succEnv,
        spawnCount, killCount, MAX_FAILURES_BEFORE_RESTART]

/-- Witness for C1 at a concrete restart count and wait oracle. -/
theorem C1_three_failures_one_restart_witness :
    spawnCount (watchdogTrace ⟨0, 0, some (), false⟩
      [failEnv [], failEnv [], failEnv []]) = 1 :=
  (C1_three_failures_one_restart 0 (by decide) []).1.1

/-- C2: from a fresh watchdog (`consecutive_failures = 0`,
`restart_count = 0`, tracked handle) under probes that always fail and
post-respawn waits that never succeed — so the loop never re-enters
`Running` — the three restart attempts use up the budget, whatever each
spawn returned; at the following failed probe the wake emits exactly one
error event (the give-up message) and terminates the loop, and no
continuation of any length probes again or emits anything further. -/
theorem C2_terminal_failure (sp1 sp2 sp3 : Except String Unit)
    (rest : List WdEnv) :
    (watchdogStep (watchdogRun ⟨0, 0, some (), false⟩
        [failEnv [], failEnv [],
         ⟨false, false, false, sp1, []⟩,
         ⟨false, false, false, sp2, []⟩,
         ⟨false, false, false, sp3, []⟩]) (failEnv [])).events
      = [{ status := .error, message := maxRestartsMsg }] ∧
    (watchdogStep (watchdogRun ⟨0, 0, some (), false⟩
        [failEnv [], failEnv [],
         ⟨false, false, false, sp1, []⟩,
         ⟨false, false, false, sp2, []⟩,
         ⟨false, false, false, sp3, []⟩]) (failEnv [])).state.exited
      = true ∧
    (∀ o ∈ watchdogTrace
        (watchdogStep (watchdogRun ⟨0, 0, some (), false⟩
          [failEnv [], failEnv [],
           ⟨false, false, false, sp1, []⟩,
           ⟨false, false, false, sp2, []⟩,
           ⟨false, false, false, sp3, []⟩]) (failEnv [])).state rest,
      o.probed = false ∧ o.events = []) := by
  have hwf : wait_for_health ([] : List Bool) 30 = false := rfl
  rcases sp1 with e1 | u1 <;> rcases sp2 with e2 | u2 <;>
    rcases sp3 with e3 | u3 <;>
  · refine ⟨?_, ?_, ?_⟩
    · simp [watchdogRun, watchdogStep, failEnv,
        MAX_FAILURES_BEFORE_RESTART, MAX_RESTARTS, hwf]
    · simp [watchdogRun, watchdogStep, failEnv,
        MAX_FAILURES_BEFORE_RESTART, MAX_RESTARTS, hwf]
    · exact watchdogTrace_exited _
        (by simp [watchdogRun, watchdogStep, failEnv,
          MAX_FAILURES_BEFORE_RESTART, MAX_RESTARTS, hwf]) rest

/-- C9: at a wake whose failing probe brings `consecutive_failures` to the
threshold with restart budget left, where the respawn succeeds but the
post-respawn `wait_for_health(30, 500)` fails: `consecutive_failures` is not
reset (it is incremented, so still at or above the threshold) while
`restart_count` increments; hence one single further failing probe already
performs the next restart attempt; and within the restart branch generally,
`consecutive_failures` is reset to 0 exactly when the spawn succeeded and
the post-respawn health wait succeeded. -/
theorem C9_failed_restart_keeps_failures
    (s : WatchdogState) (env env2 : WdEnv)
    (hex : s.exited = false)
    (hsd : env.shutting_down = false) (hp : env.probeOk = false)
    (hcf : MAX_FAILURES_BEFORE_RESTART ≤ s.consecutive_failures + 1)
    (hrc : s.restart_count < MAX_RESTARTS)
    (hsp : env.spawnRes = .ok ())
    (hw : wait_for_health env.waitProbes 30 = false)
    (hsd2 : env2.shutting_down = false) (hp2 : env2.probeOk = false)
    (hrc2 : s.restart_count + 1 < MAX_RESTARTS) :
    (watchdogStep s env).restartAttempted = true ∧
    (watchdogStep s env).state.consecutive_failures
      = s.consecutive_failures + 1 ∧
    MAX_FAILURES_BEFORE_RESTART
      ≤ (watchdogStep s env).state.consecutive_failures ∧
    (watchdogStep s env).state.restart_count = s.restart_count + 1 ∧
    (watchdogStep (watchdogStep s env).state env2).restartAttempted = true ∧
    (∀ env3 : WdEnv, env3.shutting_down = false → env3.probeOk = false →
      ((watchdogStep s env3).state.consecutive_failures = 0 ↔
        env3.spawnRes = .ok () ∧ wait_for_health env3.waitProbes 30 = true)) := by
  have h1 : ¬ (s.consecutive_failures + 1 < MAX_FAILURES_BEFORE_RESTART) :=
    Nat.not_lt.mpr hcf
  have h2 : ¬ (MAX_RESTARTS ≤ s.restart_count) := Nat.not_le.mpr hrc
  have hstep : watchdogStep s env =
      { state := { consecutive_failures := s.consecutive_failures + 1,
                   restart_count := s.restart_count + 1,
                   child := some (), exited := false },
        events := [{ status := .restarting, message := restartingMsg }],
        probed := true, killSent := s.child.isSome, spawned := true,
        restartAttempted := true } := by
    simp [watchdogStep, hex, hsd, hp, hsp, hw, h1, h2]
  have h3 : ¬ (s.consecutive_failures + 1 + 1 < MAX_FAILURES_BEFORE_RESTART) := by
    simp only [MAX_FAILURES_BEFORE_RESTART] at *
    omega
  have h4 : ¬ (MAX_RESTARTS ≤ s.restart_count + 1) := Nat.not_le.mpr hrc2
  refine ⟨by simp [hstep], by simp [hstep], ?_, by simp [hstep], ?_, ?_⟩
  · rw [hstep]
    simp only [MAX_FAILURES_BEFORE_RESTART] at *
    omega
  · rw [hstep]
    rcases hsp2 : env2.spawnRes with e | u
    · simp [watchdogStep, hsd2, hp2, h3, h4, hsp2]
    · cases hw2 : wait_for_health env2.waitProbes 30 <;>
        simp [watchdogStep, hsd2, hp2, h3, h4, hsp2, hw2]
  · intro env3 hsd3 hp3
    rcases hsp3 : env3.spawnRes with e | u
    · simp [watchdogStep, hex, hsd3, hp3, h1, h2, hsp3]
    · cases hw3 : wait_for_health env3.waitProbes 30 <;>
        simp [watchdogStep, hex, hsd3, hp3, h1, h2, hsp3, hw3]

/-- Witness for C9 at a concrete state and wakes. -/
theorem C9_failed_restart_keeps_failures_witness :
    (watchdogStep ⟨2, 0, some (), false⟩ (failEnv [])).restartAttempted
      = true :=
  (C9_failed_restart_keeps_failures ⟨2, 0, some (), false⟩ (failEnv [])
    (failEnv []) rfl rfl rfl (by decide) (by decide) rfl rfl rfl rfl
    (by decide)).1

end Narrassist
